import Mathlib

/-!
Verification of the transcript-scoring core of the Interview Analyzer
repository (`backend/server.py` function `analyze_text`, and the frontend
`mock_analysis` in `app.py`).

The Python code is shallowly embedded: strings become `String`/`List Char`,
Python floats become exact rationals `ℚ` (every score adjustment in the code
is a decimal literal, so exact rational arithmetic models the intended
values), Python `round(x, 1)` becomes rounding of `10 * x` to an integer,
Python sets of words become `Finset (List Char)`.  Case mapping
(`str.lower` / `str.upper`) is modelled on the ASCII letters — the alphabet
the scoring keyword lists live in — extended with the non-ASCII letter
`ſ` (U+017F), whose asymmetric Python case mapping (`upper` sends it to
`S`, `lower` keeps it) shows that the scores are not case-invariant on
arbitrary Unicode input.
-/

namespace InterviewAnalyzer

/-- Python `str.split()` whitespace characters (ASCII): space, tab,
newline, carriage return, vertical tab, form feed. -/
def isPySpace (c : Char) : Bool :=
  decide (c.toNat = 32 ∨ c.toNat = 9 ∨ c.toNat = 10 ∨
    c.toNat = 13 ∨ c.toNat = 11 ∨ c.toNat = 12)

/-- ASCII model of Python `str.lower` on one character. -/
def lowerChar (c : Char) : Char :=
  if 65 ≤ c.toNat ∧ c.toNat ≤ 90 then Char.ofNat (c.toNat + 32) else c

/-- Model of Python `str.upper` on one character: the ASCII letters, plus
the non-ASCII letter long s `ſ` (U+017F, code 383), which Python uppercases
to `S` while `str.lower` leaves it unchanged — the witness that Python's
case mapping does not satisfy `lower (upper c) = lower c`.  Identity on the
remaining characters. -/
def upperChar (c : Char) : Char :=
  if 97 ≤ c.toNat ∧ c.toNat ≤ 122 then Char.ofNat (c.toNat - 32)
  else if c.toNat = 383 then Char.ofNat 83
  else c

/-- Python `transcript.lower()` as a list of characters. -/
def lowerL (l : List Char) : List Char := l.map lowerChar

/-- Python `s.upper()` as a list of characters. -/
def upperL (l : List Char) : List Char := l.map upperChar

/-- Python `s.upper()` on strings. -/
def pyUpper (s : String) : String := String.mk (upperL s.toList)

/-- Split a list at every element satisfying `P`, keeping empty segments:
the semantics of Python `str.split(sep)` for a one-character separator
(with `P` the test for that separator), and the building block for
`str.split()` (split on whitespace runs = split at each whitespace
character, then discard empty segments). -/
def splitP (P : α → Bool) : List α → List (List α)
  | [] => [[]]
  | a :: as =>
    let r := splitP P as
    if P a then [] :: r else (a :: r.headI) :: r.tail

/-- Python `transcript.split()`: whitespace-delimited tokens. -/
def wordTokens (l : List Char) : List (List Char) :=
  (splitP isPySpace l).filter (fun s => !s.isEmpty)

/-- Source line `word_count = len(transcript.split())`. -/
def wordCount (l : List Char) : Nat := (wordTokens l).length

/-- Python `transcript.split('.')`. -/
def sentenceSegs (l : List Char) : List (List Char) :=
  splitP (fun c => decide (c = '.')) l

/-- Source line `sentence_count = len([s for s in transcript.split('.') if s.strip()])`:
a segment survives iff it contains a non-whitespace character. -/
def sentenceCount (l : List Char) : Nat :=
  ((sentenceSegs l).filter (fun s => s.any (fun c => !isPySpace c))).length

/-- Python substring test `pat in s`. -/
def isSub (pat : List Char) : List Char → Bool
  | [] => pat.isEmpty
  | c :: rest => pat.isPrefixOf (c :: rest) || isSub pat rest

/-- Fuel-driven worker for `countOcc`: at each position, if the pattern
starts here, count it and resume after it (non-overlapping), else move one
character right.  Structural recursion on the fuel keeps it kernel-reducible;
`countOcc` supplies enough fuel since every step consumes at least one
character. -/
def countOccAux (pat : List Char) : Nat → List Char → Nat
  | 0, _ => 0
  | _ + 1, [] => 0
  | fuel + 1, c :: rest =>
    if pat.isPrefixOf (c :: rest) then
      1 + countOccAux pat fuel (rest.drop (pat.length - 1))
    else countOccAux pat fuel rest

/-- Python `s.count(pat)` for non-empty `pat`: number of non-overlapping
occurrences, scanning left to right. -/
def countOcc (pat s : List Char) : Nat := countOccAux pat s.length s

/-- Source pattern `sum(1 for word in ws if word in text)`: how many members of the word
list occur as substrings of `text` (each member counted once). -/
def countMembers (ws : List (List Char)) (text : List Char) : Nat :=
  (ws.filter (fun w => isSub w text)).length

/-- The list `confident_words` from `analyze_text`. -/
def confident_words : List (List Char) :=
  ["confident".toList, "definitely".toList, "certainly".toList,
   "absolutely".toList, "experienced".toList]

/-- The list `hedging_words` from `analyze_text`. -/
def hedging_words : List (List Char) :=
  ["maybe".toList, "perhaps".toList, "might".toList, "possibly".toList,
   "kind of".toList, "sort of".toList]

/-- The list `structure_words` from `analyze_text`. -/
def structure_words : List (List Char) :=
  ["first".toList, "second".toList, "third".toList, "finally".toList,
   "additionally".toList, "furthermore".toList]

/-- The list `example_indicators` from `analyze_text`. -/
def example_indicators : List (List Char) :=
  ["example".toList, "instance".toList, "experience".toList,
   "project".toList, "time when".toList, "situation".toList]

/-- The stop-word set `common_words` from `analyze_text`. -/
def common_words : Finset (List Char) :=
  (["a".toList, "an".toList, "the".toList, "is".toList, "are".toList,
    "was".toList, "were".toList, "in".toList, "on".toList, "at".toList,
    "to".toList, "for".toList] : List (List Char)).toFinset

/-- The list `star_words` from `analyze_text`. -/
def star_words : List (List Char) :=
  ["situation".toList, "task".toList, "action".toList, "result".toList]

/-- Source line `confidence_count = sum(1 for word in confident_words if word in transcript.lower())`. -/
def confidenceCount (t : List Char) : Nat := countMembers confident_words (lowerL t)

/-- Source line `hedging_count = sum(1 for word in hedging_words if word in transcript.lower())`. -/
def hedgingCount (t : List Char) : Nat := countMembers hedging_words (lowerL t)

/-- The word-count adjustment of the confidence score:
`+2` if `50 <= word_count <= 150`, `-1` if `word_count < 30`. -/
def lengthAdj (t : List Char) : ℚ :=
  if 50 ≤ wordCount t ∧ wordCount t ≤ 150 then 2
  else if wordCount t < 30 then -1 else 0

/-- The confidence score before clamping: baseline 5.0, `+0.5` per confident
word present, `-0.5` per hedging word present, plus the length adjustment. -/
def confidencePre (t : List Char) : ℚ :=
  5 + (confidenceCount t : ℚ) * (1/2) - (hedgingCount t : ℚ) * (1/2) + lengthAdj t

/-- Source line `avg_words_per_sentence = word_count / max(sentence_count, 1)`. -/
def avgWPS (t : List Char) : ℚ :=
  (wordCount t : ℚ) / ((max (sentenceCount t) 1 : Nat) : ℚ)

/-- The `+2` clarity bonus for `12 <= avg_words_per_sentence <= 22`. -/
def lengthBonus (t : List Char) : ℚ :=
  if 12 ≤ avgWPS t ∧ avgWPS t ≤ 22 then 2 else 0

/-- Source line `fillers = transcript.lower().count('um') + ....count('uh') + ....count('like')`. -/
def fillerCount (t : List Char) : Nat :=
  countOcc "um".toList (lowerL t) + countOcc "uh".toList (lowerL t) +
  countOcc "like".toList (lowerL t)

/-- The clarity deduction `min(fillers * 0.3, 3)`. -/
def fillerPenalty (t : List Char) : ℚ := min ((fillerCount t : ℚ) * (3/10)) 3

/-- Source line `structure_count = sum(1 for word in structure_words if word in transcript.lower())`. -/
def structureCount (t : List Char) : Nat := countMembers structure_words (lowerL t)

/-- The clarity bonus `min(structure_count * 0.5, 2)`. -/
def structureBonus (t : List Char) : ℚ := min ((structureCount t : ℚ) * (1/2)) 2

/-- The clarity score before clamping. -/
def clarityPre (t : List Char) : ℚ :=
  5 + lengthBonus t - fillerPenalty t + structureBonus t

/-- Source line `question_words = set(question.lower().split()) - common_words`. -/
def questionWords (q : List Char) : Finset (List Char) :=
  (wordTokens (lowerL q)).toFinset \ common_words

/-- Source line `transcript_words = set(transcript.lower().split())`. -/
def transcriptWords (t : List Char) : Finset (List Char) :=
  (wordTokens (lowerL t)).toFinset

/-- Source line `overlap = len(question_words & transcript_words)`. -/
def overlapCount (t q : List Char) : Nat :=
  (questionWords q ∩ transcriptWords t).card

/-- The relevance bonus `min(overlap * 0.7, 3)`. -/
def overlapBonus (t q : List Char) : ℚ := min ((overlapCount t q : ℚ) * (7/10)) 3

/-- Source test `any(indicator in transcript.lower() for indicator in example_indicators)`. -/
def hasExample (t : List Char) : Bool :=
  example_indicators.any (fun w => isSub w (lowerL t))

/-- The relevance bonus `+1.5` for an example indicator. -/
def exampleBonus (t : List Char) : ℚ := if hasExample t then 3/2 else 0

/-- The relevance score before clamping. -/
def relevancePre (t q : List Char) : ℚ := 5 + overlapBonus t q + exampleBonus t

/-- The clamp `min(max(score, 0), 10)`. -/
def clamp01 (x : ℚ) : ℚ := min (max x 0) 10

/-- Python `round(x, 1)` on the exact rational value: round `10 * x` to an
integer and divide by 10.  (On the values `analyze_text` produces, `10 * x`
is already an integer, so the tie-breaking rule is immaterial.) -/
def round1 (x : ℚ) : ℚ := ((round (10 * x) : ℤ) : ℚ) / 10

/-- The feedback message strings of `analyze_text`, in source order. -/
def msgAssertive : String :=
  "Use more assertive language and reduce hedging words (maybe, possibly, etc.)"

def msgGreatConfidence : String := "Great confidence in your delivery!"

def msgFiller : String := "Reduce filler words (um, uh, like) for better clarity"

def msgLongSentences : String :=
  "Try breaking down long sentences into shorter ones for better clarity"

def msgShortSentences : String := "Consider expanding your sentences with more details"

def msgTransitions : String :=
  "Use transitional phrases (first, second, additionally) to structure your response"

def msgFocus : String := "Focus more on directly answering the question asked"

def msgDetail : String := "Provide more detailed responses with specific examples"

def msgConcise : String := "Keep responses more concise and focused"

def msgStar : String := "Consider using the STAR method: Situation, Task, Action, Result"

def msgDefault : String := "Excellent response! Keep up the good work."

/-- The feedback list built by the chain of `if` statements in
`analyze_text` (before the final default-message fallback).  The confidence
and relevance conditions read the clamped scores, as in the source. -/
def feedbackRaw (t q : List Char) : List String :=
  (if clamp01 (confidencePre t) < 6 then [msgAssertive]
   else if 8 < clamp01 (confidencePre t) then [msgGreatConfidence] else []) ++
  (if 5 < fillerCount t then [msgFiller] else []) ++
  (if 25 < avgWPS t then [msgLongSentences]
   else if avgWPS t < 10 then [msgShortSentences] else []) ++
  (if structureCount t = 0 then [msgTransitions] else []) ++
  (if clamp01 (relevancePre t q) < 6 then [msgFocus] else []) ++
  (if wordCount t < 50 then [msgDetail]
   else if 200 < wordCount t then [msgConcise] else []) ++
  (if star_words.any (fun w => isSub w (lowerL t)) then [] else [msgStar])

/-- Source fallback `if not feedback: feedback.append("Excellent response! ...")`. -/
def feedback (t q : List Char) : List String :=
  if (feedbackRaw t q).isEmpty then [msgDefault] else feedbackRaw t q

/-- The result dictionary of `analyze_text`. -/
structure AnalysisResult where
  confidence_score : ℚ
  clarity_score : ℚ
  relevance_score : ℚ
  word_count : Nat
  sentence_count : Nat
  feedback : List String
deriving Repr, DecidableEq

/-- The body of `analyze_text` on character lists. -/
def analyzeL (t q : List Char) : AnalysisResult :=
  { confidence_score := round1 (clamp01 (confidencePre t))
    clarity_score := round1 (clamp01 (clarityPre t))
    relevance_score := round1 (clamp01 (relevancePre t q))
    word_count := wordCount t
    sentence_count := sentenceCount t
    feedback := feedback t q }

/-- The function `analyze_text(transcript, question)` from `backend/server.py`. -/
def analyze_text (transcript question : String) : AnalysisResult :=
  analyzeL transcript.toList question.toList

/-- The keys of the dictionary returned by `analyze_text`, in source order. -/
def analyzeFields : List String :=
  ["confidence_score", "clarity_score", "relevance_score",
   "word_count", "sentence_count", "feedback"]

/-! ## The frontend mock (`mock_analysis` in `frontend/app.py`) -/

/-- The result dictionary of `mock_analysis`: note there is no
`sentence_count` field. -/
structure MockResult where
  confidence_score : ℚ
  clarity_score : ℚ
  relevance_score : ℚ
  word_count : Nat
  feedback : List String
deriving Repr, DecidableEq

def mockMsgDetail : String :=
  "💡 Try to provide more detailed responses (aim for 50-150 words)"

def mockMsgConcise : String := "💡 Consider being more concise in your answers"

def mockMsgLength : String := "✅ Good response length!"

def mockMsgStructure : String := "✅ Good structure and delivery"

def mockMsgStar : String :=
  "💡 Consider using the STAR method (Situation, Task, Action, Result)"

def mockMsgTone : String := "🎯 Practice maintaining confident tone throughout"

/-- The function `mock_analysis(transcript, question)` from `frontend/app.py`. -/
def mock_analysis (transcript question : String) : MockResult :=
  let t := transcript.toList
  let wc := wordCount t
  { confidence_score := round1 (min 10 (max 5 ((wc : ℚ) / 15)))
    clarity_score :=
      round1 (min 10 (7 + (if 2 < (sentenceSegs t).length then (1:ℚ) else 0)))
    relevance_score :=
      round1 (min 10 (6 + (if (wordTokens (lowerL question.toList)).any
        (fun w => isSub w (lowerL t)) then (2:ℚ) else 0)))
    word_count := wc
    feedback :=
      (if wc < 30 then [mockMsgDetail]
       else if 200 < wc then [mockMsgConcise] else [mockMsgLength]) ++
      [mockMsgStructure, mockMsgStar, mockMsgTone] }

/-- Predicate: `x` is an integer number of tenths, the form of every value that
`round(x, 1)` leaves unchanged. -/
def IsTenth (x : ℚ) : Prop := ∃ n : ℤ, x = (n : ℚ) / 10

/-- Well-formedness of an analysis result: the three scores lie in `[0,10]`
and the feedback list is non-empty. -/
def WellFormed (r : AnalysisResult) : Prop :=
  0 ≤ r.confidence_score ∧ r.confidence_score ≤ 10 ∧
  0 ≤ r.clarity_score ∧ r.clarity_score ≤ 10 ∧
  0 ≤ r.relevance_score ∧ r.relevance_score ≤ 10 ∧
  r.feedback ≠ []

/-- The keys of the dictionary returned by `mock_analysis`, in source order. -/
def mockFields : List String :=
  ["confidence_score", "clarity_score", "relevance_score",
   "word_count", "feedback"]

/-! ## Basic bounds on the sub-scores -/

theorem countMembers_le (ws : List (List Char)) (text : List Char) :
    countMembers ws text ≤ ws.length :=
  List.length_filter_le _ _

theorem confidenceCount_le (t : List Char) : confidenceCount t ≤ 5 :=
  countMembers_le confident_words (lowerL t)

theorem hedgingCount_le (t : List Char) : hedgingCount t ≤ 6 :=
  countMembers_le hedging_words (lowerL t)

theorem lengthAdj_bounds (t : List Char) : -1 ≤ lengthAdj t ∧ lengthAdj t ≤ 2 := by
  unfold lengthAdj; split_ifs <;> norm_num

theorem confidencePre_bounds (t : List Char) :
    1 ≤ confidencePre t ∧ confidencePre t ≤ 19/2 := by
  have h1 : (confidenceCount t : ℚ) ≤ 5 := by exact_mod_cast confidenceCount_le t
  have h2 : (hedgingCount t : ℚ) ≤ 6 := by exact_mod_cast hedgingCount_le t
  have h3 : (0:ℚ) ≤ (confidenceCount t : ℚ) := Nat.cast_nonneg _
  have h4 : (0:ℚ) ≤ (hedgingCount t : ℚ) := Nat.cast_nonneg _
  have h5 := lengthAdj_bounds t
  unfold confidencePre
  constructor <;> linarith [h5.1, h5.2]

theorem lengthBonus_bounds (t : List Char) : 0 ≤ lengthBonus t ∧ lengthBonus t ≤ 2 := by
  unfold lengthBonus; split_ifs <;> norm_num

theorem fillerPenalty_bounds (t : List Char) :
    0 ≤ fillerPenalty t ∧ fillerPenalty t ≤ 3 := by
  constructor
  · exact le_min (by positivity) (by norm_num)
  · exact min_le_right _ _

theorem structureBonus_bounds (t : List Char) :
    0 ≤ structureBonus t ∧ structureBonus t ≤ 2 := by
  constructor
  · exact le_min (by positivity) (by norm_num)
  · exact min_le_right _ _

theorem clarityPre_bounds (t : List Char) :
    2 ≤ clarityPre t ∧ clarityPre t ≤ 9 := by
  have h1 := lengthBonus_bounds t
  have h2 := fillerPenalty_bounds t
  have h3 := structureBonus_bounds t
  unfold clarityPre
  constructor <;> linarith [h1.1, h1.2, h2.1, h2.2, h3.1, h3.2]

theorem overlapBonus_bounds (t q : List Char) :
    0 ≤ overlapBonus t q ∧ overlapBonus t q ≤ 3 := by
  constructor
  · exact le_min (by positivity) (by norm_num)
  · exact min_le_right _ _

theorem exampleBonus_bounds (t : List Char) :
    0 ≤ exampleBonus t ∧ exampleBonus t ≤ 3/2 := by
  unfold exampleBonus; split_ifs <;> norm_num

theorem relevancePre_bounds (t q : List Char) :
    5 ≤ relevancePre t q ∧ relevancePre t q ≤ 19/2 := by
  have h1 := overlapBonus_bounds t q
  have h2 := exampleBonus_bounds t
  unfold relevancePre
  constructor <;> linarith [h1.1, h1.2, h2.1, h2.2]

/-! ## The clamp and the rounding -/

theorem clamp01_bounds (x : ℚ) : 0 ≤ clamp01 x ∧ clamp01 x ≤ 10 := by
  unfold clamp01
  constructor
  · exact le_min (le_max_right _ _) (by norm_num)
  · exact min_le_right _ _

theorem clamp01_eq_self {x : ℚ} (h0 : 0 ≤ x) (h10 : x ≤ 10) : clamp01 x = x := by
  unfold clamp01
  rw [max_eq_left h0, min_eq_left h10]

theorem isTenth_int (n : ℤ) : IsTenth (n : ℚ) := ⟨10 * n, by push_cast; ring⟩

theorem isTenth_add {x y : ℚ} : IsTenth x → IsTenth y → IsTenth (x + y) := by
  rintro ⟨a, rfl⟩ ⟨b, rfl⟩
  exact ⟨a + b, by push_cast; ring⟩

theorem isTenth_sub {x y : ℚ} : IsTenth x → IsTenth y → IsTenth (x - y) := by
  rintro ⟨a, rfl⟩ ⟨b, rfl⟩
  exact ⟨a - b, by push_cast; ring⟩

theorem isTenth_min {x y : ℚ} : IsTenth x → IsTenth y → IsTenth (min x y) := by
  rintro ⟨a, rfl⟩ ⟨b, rfl⟩
  rcases le_total a b with h | h
  · rw [min_eq_left (by gcongr)]
    exact ⟨a, rfl⟩
  · rw [min_eq_right (by gcongr)]
    exact ⟨b, rfl⟩

theorem isTenth_max {x y : ℚ} : IsTenth x → IsTenth y → IsTenth (max x y) := by
  rintro ⟨a, rfl⟩ ⟨b, rfl⟩
  rcases le_total a b with h | h
  · rw [max_eq_right (by gcongr)]
    exact ⟨b, rfl⟩
  · rw [max_eq_left (by gcongr)]
    exact ⟨a, rfl⟩

theorem isTenth_ite {x y : ℚ} (c : Prop) [Decidable c] :
    IsTenth x → IsTenth y → IsTenth (if c then x else y) := by
  intro hx hy
  split <;> assumption

theorem isTenth_confidencePre (t : List Char) : IsTenth (confidencePre t) := by
  unfold confidencePre lengthAdj
  refine isTenth_add (isTenth_sub (isTenth_add (isTenth_int 5) ?_) ?_)
    (isTenth_ite _ (isTenth_int 2) (isTenth_ite _ (isTenth_int (-1)) (isTenth_int 0)))
  · exact ⟨5 * (confidenceCount t : ℤ), by push_cast; ring⟩
  · exact ⟨5 * (hedgingCount t : ℤ), by push_cast; ring⟩

theorem isTenth_clarityPre (t : List Char) : IsTenth (clarityPre t) := by
  unfold clarityPre lengthBonus fillerPenalty structureBonus
  refine isTenth_add (isTenth_sub (isTenth_add (isTenth_int 5)
    (isTenth_ite _ (isTenth_int 2) (isTenth_int 0))) (isTenth_min ?_ (isTenth_int 3)))
    (isTenth_min ?_ (isTenth_int 2))
  · exact ⟨3 * (fillerCount t : ℤ), by push_cast; ring⟩
  · exact ⟨5 * (structureCount t : ℤ), by push_cast; ring⟩

theorem isTenth_relevancePre (t q : List Char) : IsTenth (relevancePre t q) := by
  unfold relevancePre overlapBonus exampleBonus
  refine isTenth_add (isTenth_add (isTenth_int 5) (isTenth_min ?_ (isTenth_int 3)))
    (isTenth_ite _ ⟨15, by norm_num⟩ (isTenth_int 0))
  · exact ⟨7 * (overlapCount t q : ℤ), by push_cast; ring⟩

theorem isTenth_clamp01 {x : ℚ} (h : IsTenth x) : IsTenth (clamp01 x) :=
  isTenth_min (isTenth_max h (isTenth_int 0)) (isTenth_int 10)

theorem round1_eq_self {x : ℚ} (h : IsTenth x) : round1 x = x := by
  obtain ⟨n, rfl⟩ := h
  unfold round1
  have h10 : (10 : ℚ) * ((n : ℚ) / 10) = (n : ℚ) := by ring
  rw [h10, round_intCast]

theorem round1_bounds {x : ℚ} (h0 : 0 ≤ x) (h10 : x ≤ 10) :
    0 ≤ round1 x ∧ round1 x ≤ 10 := by
  unfold round1
  have hlo : (0 : ℤ) ≤ round (10 * x) := by
    rw [round_eq, Int.le_floor]
    push_cast
    linarith
  have hhi : round (10 * x) ≤ 100 := by
    rw [round_eq, Int.floor_le_iff]
    push_cast
    linarith
  constructor
  · exact div_nonneg (by exact_mod_cast hlo) (by norm_num)
  · rw [div_le_iff₀ (by norm_num : (0:ℚ) < 10)]
    have h : ((round (10 * x) : ℤ) : ℚ) ≤ 100 := by exact_mod_cast hhi
    linarith

/-! ## The returned scores are the clamped pre-scores -/

theorem confidence_score_eq (t q : List Char) :
    (analyzeL t q).confidence_score = confidencePre t := by
  show round1 (clamp01 (confidencePre t)) = confidencePre t
  have hb := confidencePre_bounds t
  rw [clamp01_eq_self (by linarith [hb.1]) (by linarith [hb.2])]
  exact round1_eq_self (isTenth_confidencePre t)

theorem clarity_score_eq (t q : List Char) :
    (analyzeL t q).clarity_score = clarityPre t := by
  show round1 (clamp01 (clarityPre t)) = clarityPre t
  have hb := clarityPre_bounds t
  rw [clamp01_eq_self (by linarith [hb.1]) (by linarith [hb.2])]
  exact round1_eq_self (isTenth_clarityPre t)

theorem relevance_score_eq (t q : List Char) :
    (analyzeL t q).relevance_score = relevancePre t q := by
  show round1 (clamp01 (relevancePre t q)) = relevancePre t q
  have hb := relevancePre_bounds t q
  rw [clamp01_eq_self (by linarith [hb.1]) (by linarith [hb.2])]
  exact round1_eq_self (isTenth_relevancePre t q)

theorem feedback_ne_nil (t q : List Char) : feedback t q ≠ [] := by
  unfold feedback
  split
  · simp
  · next h => simpa [List.isEmpty_iff] using h

theorem analyzeL_wellFormed (t q : List Char) : WellFormed (analyzeL t q) := by
  have hc := confidencePre_bounds t
  have hk := clarityPre_bounds t
  have hr := relevancePre_bounds t q
  refine ⟨?_, ?_, ?_, ?_, ?_, ?_, ?_⟩
  · rw [confidence_score_eq]; linarith [hc.1]
  · rw [confidence_score_eq]; linarith [hc.2]
  · rw [clarity_score_eq]; linarith [hk.1]
  · rw [clarity_score_eq]; linarith [hk.2]
  · rw [relevance_score_eq]; linarith [hr.1]
  · rw [relevance_score_eq]; linarith [hr.2]
  · exact feedback_ne_nil t q

/-! ## Claim theorems -/

/-- C1: for every transcript and question, each of the three score fields of
`analyze_text` lies in the closed interval `[0, 10]` and is an integer
number of tenths, i.e. is rounded to one decimal place. -/
theorem C1_scores_bounded_and_tenth (transcript question : String) :
    (0 ≤ (analyze_text transcript question).confidence_score ∧
      (analyze_text transcript question).confidence_score ≤ 10 ∧
      IsTenth (analyze_text transcript question).confidence_score) ∧
    (0 ≤ (analyze_text transcript question).clarity_score ∧
      (analyze_text transcript question).clarity_score ≤ 10 ∧
      IsTenth (analyze_text transcript question).clarity_score) ∧
    (0 ≤ (analyze_text transcript question).relevance_score ∧
      (analyze_text transcript question).relevance_score ≤ 10 ∧
      IsTenth (analyze_text transcript question).relevance_score) := by
  have h := analyzeL_wellFormed transcript.toList question.toList
  obtain ⟨h1, h2, h3, h4, h5, h6, -⟩ := h
  refine ⟨⟨h1, h2, ?_⟩, ⟨h3, h4, ?_⟩, ⟨h5, h6, ?_⟩⟩
  · rw [analyze_text, confidence_score_eq]; exact isTenth_confidencePre _
  · rw [analyze_text, clarity_score_eq]; exact isTenth_clarityPre _
  · rw [analyze_text, relevance_score_eq]; exact isTenth_relevancePre _ _

/-- C2: `analyze_text` is total over all string inputs: the divisor
`max(sentence_count, 1)` of the average-words-per-sentence computation is
never zero, and every call produces a well-formed result (scores in
`[0, 10]`, non-empty feedback). -/
theorem C2_total_and_division_guarded (transcript question : String) :
    ((max (sentenceCount transcript.toList) 1 : Nat) : ℚ) ≠ 0 ∧
    WellFormed (analyze_text transcript question) := by
  constructor
  · have : 1 ≤ max (sentenceCount transcript.toList) 1 := le_max_right _ _
    positivity
  · exact analyzeL_wellFormed _ _

/-- C3: the `word_count` field is the number of whitespace-delimited tokens
of the transcript, and the `sentence_count` field is the number of segments
of the transcript split on `'.'` that are non-empty after stripping
whitespace; both are the raw unmodified counts. -/
theorem C3_raw_counts (transcript question : String) :
    (analyze_text transcript question).word_count =
      (splitP isPySpace transcript.toList).countP (fun s => !s.isEmpty) ∧
    (analyze_text transcript question).sentence_count =
      (splitP (fun c => decide (c = '.')) transcript.toList).countP
        (fun s => s.any (fun c => !isPySpace c)) := by
  constructor
  · show wordCount transcript.toList = _
    rw [wordCount, wordTokens, List.countP_eq_length_filter]
  · show sentenceCount transcript.toList = _
    rw [sentenceCount, sentenceSegs, List.countP_eq_length_filter]

/-- C7: the feedback list is never empty, and on the empty transcript and
question the result has `word_count = 0`, `sentence_count = 0` and a
non-empty feedback list. -/
theorem C7_feedback_nonempty (transcript question : String) :
    (analyze_text transcript question).feedback ≠ [] ∧
    (analyze_text "" "").word_count = 0 ∧
    (analyze_text "" "").sentence_count = 0 ∧
    (analyze_text "" "").feedback ≠ [] := by
  refine ⟨feedback_ne_nil _ _, by decide, by decide, feedback_ne_nil _ _⟩

/-- C10: the clamp to `[0,10]` never changes any score: before clamping the
confidence score lies in `[1, 9.5]`, the clarity score in `[2, 9]` and the
relevance score in `[5, 9.5]`; consequently the returned `relevance_score`
is never below 5 and no returned score reaches 0 or 10. -/
theorem C10_clamp_never_fires (transcript question : String) :
    (1 ≤ confidencePre transcript.toList ∧ confidencePre transcript.toList ≤ 19/2 ∧
      clamp01 (confidencePre transcript.toList) = confidencePre transcript.toList) ∧
    (2 ≤ clarityPre transcript.toList ∧ clarityPre transcript.toList ≤ 9 ∧
      clamp01 (clarityPre transcript.toList) = clarityPre transcript.toList) ∧
    (5 ≤ relevancePre transcript.toList question.toList ∧
      relevancePre transcript.toList question.toList ≤ 19/2 ∧
      clamp01 (relevancePre transcript.toList question.toList) =
        relevancePre transcript.toList question.toList) ∧
    5 ≤ (analyze_text transcript question).relevance_score ∧
    (0 < (analyze_text transcript question).confidence_score ∧
      (analyze_text transcript question).confidence_score < 10) ∧
    (0 < (analyze_text transcript question).clarity_score ∧
      (analyze_text transcript question).clarity_score < 10) ∧
    (0 < (analyze_text transcript question).relevance_score ∧
      (analyze_text transcript question).relevance_score < 10) := by
  have hc := confidencePre_bounds transcript.toList
  have hk := clarityPre_bounds transcript.toList
  have hr := relevancePre_bounds transcript.toList question.toList
  refine ⟨⟨hc.1, hc.2, clamp01_eq_self (by linarith [hc.1]) (by linarith [hc.2])⟩,
    ⟨hk.1, hk.2, clamp01_eq_self (by linarith [hk.1]) (by linarith [hk.2])⟩,
    ⟨hr.1, hr.2, clamp01_eq_self (by linarith [hr.1]) (by linarith [hr.2])⟩,
    ?_, ⟨?_, ?_⟩, ⟨?_, ?_⟩, ⟨?_, ?_⟩⟩ <;>
    rw [analyze_text] <;>
    first
      | (rw [confidence_score_eq]; linarith [hc.1, hc.2])
      | (rw [clarity_score_eq]; linarith [hk.1, hk.2])
      | (rw [relevance_score_eq]; linarith [hr.1, hr.2])

/-- C4: the confidence score before clamping equals 5.0, plus 0.5 for each
member of the confident-word set occurring as a substring of the lowercased
transcript (at most one 0.5 per member), minus 0.5 per hedging-set member
occurring as a substring, plus 2 if the word count is in `[50, 150]`, minus
1 if it is below 30, and unchanged otherwise; the returned
`confidence_score` is exactly this value clamped and rounded. -/
theorem C4_confidence_formula (transcript question : String) :
    confidencePre transcript.toList =
      5 + (1/2) * ((confident_words.countP
            (fun w => isSub w (lowerL transcript.toList)) : ℚ))
        - (1/2) * ((hedging_words.countP
            (fun w => isSub w (lowerL transcript.toList)) : ℚ))
        + (if 50 ≤ wordCount transcript.toList ∧ wordCount transcript.toList ≤ 150
            then 2
            else if wordCount transcript.toList < 30 then (-1 : ℚ) else 0) ∧
    (analyze_text transcript question).confidence_score =
      round1 (clamp01 (confidencePre transcript.toList)) := by
  constructor
  · unfold confidencePre confidenceCount hedgingCount countMembers lengthAdj
    rw [List.countP_eq_length_filter, List.countP_eq_length_filter]
    ring
  · rfl

/-- C5: the relevance score before clamping equals 5.0, plus
`min(overlap * 0.7, 3)` where `overlap` is the size of the intersection of
the lowercased question-word set with the stop words removed and the
lowercased transcript-word set, plus 1.5 if some example indicator occurs
as a substring of the lowercased transcript; the returned `relevance_score`
is exactly this value clamped and rounded. -/
theorem C5_relevance_formula (transcript question : String) :
    relevancePre transcript.toList question.toList =
      5 + min ((((wordTokens (lowerL question.toList)).toFinset \ common_words) ∩
            (wordTokens (lowerL transcript.toList)).toFinset).card * (7/10) : ℚ) 3
        + (if example_indicators.any (fun w => isSub w (lowerL transcript.toList))
            then (3/2 : ℚ) else 0) ∧
    (analyze_text transcript question).relevance_score =
      round1 (clamp01 (relevancePre transcript.toList question.toList)) := by
  exact ⟨rfl, rfl⟩

theorem msgFiller_mem_feedback {t q : List Char} (h : 5 < fillerCount t) :
    msgFiller ∈ feedback t q := by
  have hmem : msgFiller ∈ feedbackRaw t q := by
    unfold feedbackRaw
    rw [if_pos h]
    simp
  have hne : feedbackRaw t q ≠ [] := List.ne_nil_of_mem hmem
  unfold feedback
  rw [if_neg (by simpa [List.isEmpty_iff] using hne)]
  exact hmem

/-- C6: a transcript with exactly 6 combined substring occurrences of
"um", "uh", "like" gets the reduce-filler-words feedback message, and its
clarity score is exactly `min(6 * 0.3, 3) = 1.8` lower than that of an
otherwise-identical filler-free transcript (same sentence-length bonus and
same structure bonus). -/
theorem C6_filler_effect (t t' q q' : String)
    (h6 : fillerCount t.toList = 6)
    (h0 : fillerCount t'.toList = 0)
    (hlen : lengthBonus t.toList = lengthBonus t'.toList)
    (hstruct : structureBonus t.toList = structureBonus t'.toList) :
    msgFiller ∈ (analyze_text t q).feedback ∧
    (analyze_text t q).clarity_score = (analyze_text t' q').clarity_score - 9/5 := by
  constructor
  · exact msgFiller_mem_feedback (by omega)
  · rw [analyze_text, analyze_text, clarity_score_eq, clarity_score_eq]
    unfold clarityPre fillerPenalty
    rw [hlen, hstruct, h6, h0]
    norm_num
    ring

/-- Witness for `C6_filler_effect`: the transcript `"um um um um um um"`
against the empty filler-free transcript. -/
theorem C6_filler_effect_witness :
    fillerCount "um um um um um um".toList = 6 ∧
    fillerCount "".toList = 0 ∧
    lengthBonus "um um um um um um".toList = lengthBonus "".toList ∧
    structureBonus "um um um um um um".toList = structureBonus "".toList ∧
    (msgFiller ∈ (analyze_text "um um um um um um" "").feedback ∧
      (analyze_text "um um um um um um" "").clarity_score =
        (analyze_text "" "").clarity_score - 9/5) := by
  have h6 : fillerCount "um um um um um um".toList = 6 := by decide
  have h0 : fillerCount "".toList = 0 := by decide
  have havg : avgWPS "um um um um um um".toList = 6 := by
    unfold avgWPS
    rw [show wordCount "um um um um um um".toList = 6 from by decide,
      show sentenceCount "um um um um um um".toList = 1 from by decide]
    norm_num
  have havg0 : avgWPS "".toList = 0 := by
    unfold avgWPS
    rw [show wordCount "".toList = 0 from by decide,
      show sentenceCount "".toList = 0 from by decide]
    norm_num
  have hlen : lengthBonus "um um um um um um".toList = lengthBonus "".toList := by
    unfold lengthBonus
    rw [havg, havg0]
    norm_num
  have hstruct : structureBonus "um um um um um um".toList =
      structureBonus "".toList := by
    unfold structureBonus
    rw [show structureCount "um um um um um um".toList = 0 from by decide,
      show structureCount "".toList = 0 from by decide]
  exact ⟨h6, h0, hlen, hstruct,
    C6_filler_effect "um um um um um um" "" "" "" h6 h0 hlen hstruct⟩

/-! ## Case invariance (C8) -/

theorem toNat_ofNat_of_lt {n : Nat} (h : n < 55296) : (Char.ofNat n).toNat = n := by
  unfold Char.ofNat
  rw [dif_pos (Or.inl h)]
  rfl

theorem char_toNat_lt (c : Char) : c.toNat < 1114112 := by
  rcases c.valid with h | ⟨h1, h2⟩
  · exact lt_trans h (by norm_num)
  · exact h2

theorem upperChar_toNat (c : Char) :
    (upperChar c).toNat =
      if 97 ≤ c.toNat ∧ c.toNat ≤ 122 then c.toNat - 32
      else if c.toNat = 383 then 83 else c.toNat := by
  unfold upperChar
  by_cases h1 : 97 ≤ c.toNat ∧ c.toNat ≤ 122
  · rw [if_pos h1, if_pos h1]
    exact toNat_ofNat_of_lt (by omega)
  · rw [if_neg h1, if_neg h1]
    by_cases h2 : c.toNat = 383
    · rw [if_pos h2, if_pos h2]
      exact toNat_ofNat_of_lt (by omega)
    · rw [if_neg h2, if_neg h2]

theorem lowerChar_upperChar (c : Char) (hc : c.toNat ≠ 383) :
    lowerChar (upperChar c) = lowerChar c := by
  by_cases h : 97 ≤ c.toNat ∧ c.toNat ≤ 122
  · have h1 : upperChar c = Char.ofNat (c.toNat - 32) := by
      unfold upperChar; rw [if_pos h]
    have h2 : (Char.ofNat (c.toNat - 32)).toNat = c.toNat - 32 :=
      toNat_ofNat_of_lt (by omega)
    rw [h1]
    unfold lowerChar
    rw [h2, if_pos (by omega : 65 ≤ c.toNat - 32 ∧ c.toNat - 32 ≤ 90),
      if_neg (by omega : ¬(65 ≤ c.toNat ∧ c.toNat ≤ 90)),
      show c.toNat - 32 + 32 = c.toNat from by omega, Char.ofNat_toNat]
  · have h1 : upperChar c = c := by unfold upperChar; rw [if_neg h, if_neg hc]
    rw [h1]

theorem isPySpace_upperChar (c : Char) : isPySpace (upperChar c) = isPySpace c := by
  unfold isPySpace
  rw [decide_eq_decide, upperChar_toNat]
  split
  · omega
  · split <;> omega

theorem isDot_upperChar (c : Char) :
    (decide (upperChar c = '.')) = (decide (c = '.')) := by
  rw [decide_eq_decide]
  constructor
  · intro h
    by_cases hr : 97 ≤ c.toNat ∧ c.toNat ≤ 122
    · exfalso
      have := congrArg Char.toNat h
      rw [upperChar_toNat, if_pos hr] at this
      have hdot : ('.').toNat = 46 := by decide
      omega
    · by_cases h383 : c.toNat = 383
      · exfalso
        have := congrArg Char.toNat h
        rw [upperChar_toNat, if_neg hr, if_pos h383] at this
        have hdot : ('.').toNat = 46 := by decide
        omega
      · have h1 : upperChar c = c := by unfold upperChar; rw [if_neg hr, if_neg h383]
        rwa [h1] at h
  · intro h
    subst h
    decide

theorem splitP_ne_nil (P : α → Bool) (l : List α) : splitP P l ≠ [] := by
  cases l with
  | nil => simp [splitP]
  | cons a as =>
    simp only [splitP]
    split <;> simp

theorem splitP_map (P : α → Bool) (f : α → α) (hf : ∀ a, P (f a) = P a)
    (l : List α) : splitP P (l.map f) = (splitP P l).map (List.map f) := by
  induction l with
  | nil => simp [splitP]
  | cons a as ih =>
    simp only [List.map_cons, splitP, ih, hf a]
    split
    · rfl
    · rcases hsp : splitP P as with _ | ⟨t, ts⟩
      · exact absurd hsp (splitP_ne_nil P as)
      · simp

theorem lowerL_upperL (l : List Char) (hl : ∀ c ∈ l, c.toNat < 128) :
    lowerL (upperL l) = lowerL l := by
  unfold lowerL upperL
  rw [List.map_map]
  exact List.map_congr_left
    (fun c hc => lowerChar_upperChar c (by have := hl c hc; omega))

theorem wordTokens_upperL (l : List Char) :
    wordTokens (upperL l) = (wordTokens l).map (List.map upperChar) := by
  unfold wordTokens upperL
  rw [splitP_map _ _ isPySpace_upperChar, List.filter_map]
  congr 1
  apply List.filter_congr
  intro x _
  cases x <;> rfl

theorem wordCount_upperL (l : List Char) : wordCount (upperL l) = wordCount l := by
  unfold wordCount
  rw [wordTokens_upperL, List.length_map]

theorem sentenceCount_upperL (l : List Char) :
    sentenceCount (upperL l) = sentenceCount l := by
  unfold sentenceCount sentenceSegs upperL
  rw [splitP_map _ _ isDot_upperChar, List.filter_map]
  rw [List.length_map]
  congr 1
  apply List.filter_congr
  intro x _
  show (x.map upperChar).any (fun c => !isPySpace c) = x.any (fun c => !isPySpace c)
  rw [List.any_map]
  have hfun : ((fun c => !isPySpace c) ∘ upperChar) = (fun c => !isPySpace c) := by
    funext c
    simp only [Function.comp_apply, isPySpace_upperChar]
  rw [hfun]

theorem confidencePre_upperL (l : List Char) (hl : ∀ c ∈ l, c.toNat < 128) :
    confidencePre (upperL l) = confidencePre l := by
  unfold confidencePre confidenceCount hedgingCount lengthAdj
  rw [lowerL_upperL l hl, wordCount_upperL]

theorem clarityPre_upperL (l : List Char) (hl : ∀ c ∈ l, c.toNat < 128) :
    clarityPre (upperL l) = clarityPre l := by
  unfold clarityPre lengthBonus avgWPS fillerPenalty fillerCount
    structureBonus structureCount
  rw [lowerL_upperL l hl, wordCount_upperL, sentenceCount_upperL]

theorem relevancePre_upperL (t q : List Char) (ht : ∀ c ∈ t, c.toNat < 128)
    (hq : ∀ c ∈ q, c.toNat < 128) :
    relevancePre (upperL t) (upperL q) = relevancePre t q := by
  unfold relevancePre overlapBonus overlapCount questionWords transcriptWords
    exampleBonus hasExample
  rw [lowerL_upperL t ht, lowerL_upperL q hq]

/-- C8 fails as stated: Python's case mapping is not ASCII-clean, and the
program is not score-invariant under uppercasing arbitrary input.  The
transcript `"abſolutely"` contains no confident word (its lowercase form is
itself), but its Python uppercase form `"ABSOLUTELY"` (the long s `ſ`
uppercases to `S`) lowercases to `"absolutely"`, which matches the
confident word `absolutely` and earns +0.5 confidence. -/
theorem C8_counterexample :
    (analyze_text (pyUpper "abſolutely") "").confidence_score ≠
      (analyze_text "abſolutely" "").confidence_score := by
  rw [analyze_text, analyze_text, confidence_score_eq, confidence_score_eq]
  unfold confidencePre lengthAdj
  rw [show confidenceCount (pyUpper "abſolutely").toList = 1 from by decide,
    show hedgingCount (pyUpper "abſolutely").toList = 0 from by decide,
    show wordCount (pyUpper "abſolutely").toList = 1 from by decide,
    show confidenceCount "abſolutely".toList = 0 from by decide,
    show hedgingCount "abſolutely".toList = 0 from by decide,
    show wordCount "abſolutely".toList = 1 from by decide]
  norm_num

/-- C8, amended: for ASCII transcripts and questions — where Python's
`str.upper`/`str.lower` agree with the ASCII case maps — the three scores
of `analyze_text` are invariant under uppercasing both inputs, because of
the internal lowercase normalization. -/
theorem C8_scores_case_invariant_ascii (transcript question : String)
    (ht : ∀ c ∈ transcript.toList, c.toNat < 128)
    (hq : ∀ c ∈ question.toList, c.toNat < 128) :
    (analyze_text (pyUpper transcript) (pyUpper question)).confidence_score =
      (analyze_text transcript question).confidence_score ∧
    (analyze_text (pyUpper transcript) (pyUpper question)).clarity_score =
      (analyze_text transcript question).clarity_score ∧
    (analyze_text (pyUpper transcript) (pyUpper question)).relevance_score =
      (analyze_text transcript question).relevance_score := by
  have ht2 : (pyUpper transcript).toList = upperL transcript.toList := rfl
  have hq2 : (pyUpper question).toList = upperL question.toList := rfl
  refine ⟨?_, ?_, ?_⟩ <;> rw [analyze_text, analyze_text]
  · rw [confidence_score_eq, confidence_score_eq, ht2,
      confidencePre_upperL transcript.toList ht]
  · rw [clarity_score_eq, clarity_score_eq, ht2,
      clarityPre_upperL transcript.toList ht]
  · rw [relevance_score_eq, relevance_score_eq, ht2, hq2,
      relevancePre_upperL transcript.toList question.toList ht hq]

/-- Witness for `C8_scores_case_invariant_ascii`: the ASCII transcript
`"I am confident."` and question `"Tell me about yourself"`. -/
theorem C8_scores_case_invariant_ascii_witness :
    (∀ c ∈ ("I am confident.").toList, c.toNat < 128) ∧
    (∀ c ∈ ("Tell me about yourself").toList, c.toNat < 128) ∧
    ((analyze_text (pyUpper "I am confident.") (pyUpper "Tell me about yourself")).confidence_score =
        (analyze_text "I am confident." "Tell me about yourself").confidence_score ∧
      (analyze_text (pyUpper "I am confident.") (pyUpper "Tell me about yourself")).clarity_score =
        (analyze_text "I am confident." "Tell me about yourself").clarity_score ∧
      (analyze_text (pyUpper "I am confident.") (pyUpper "Tell me about yourself")).relevance_score =
        (analyze_text "I am confident." "Tell me about yourself").relevance_score) := by
  have ht : ∀ c ∈ ("I am confident.").toList, c.toNat < 128 := by decide
  have hq : ∀ c ∈ ("Tell me about yourself").toList, c.toNat < 128 := by decide
  exact ⟨ht, hq,
    C8_scores_case_invariant_ascii "I am confident." "Tell me about yourself" ht hq⟩

/-! ## The mock and the backend (C9) -/

/-- C9 fails as stated: the dictionary returned by `mock_analysis` has no
`sentence_count` key, so it does not have the same field structure as
`AnalysisResult`. -/
theorem C9_counterexample :
    "sentence_count" ∈ analyzeFields ∧ "sentence_count" ∉ mockFields := by
  constructor
  · simp [analyzeFields]
  · simp [mockFields]

/-- C9, amended: `mock_analysis` implements the `AnalysisResult` contract on
all fields except `sentence_count`, which it omits: its key list is the
backend's key list with `sentence_count` removed, its three scores lie in
`[0, 10]`, its `word_count` is the whitespace token count of the transcript,
and its feedback list is non-empty. -/
theorem C9_amended_mock_contract (transcript question : String) :
    mockFields = analyzeFields.filter (fun s => !(s == "sentence_count")) ∧
    (0 ≤ (mock_analysis transcript question).confidence_score ∧
      (mock_analysis transcript question).confidence_score ≤ 10) ∧
    (0 ≤ (mock_analysis transcript question).clarity_score ∧
      (mock_analysis transcript question).clarity_score ≤ 10) ∧
    (0 ≤ (mock_analysis transcript question).relevance_score ∧
      (mock_analysis transcript question).relevance_score ≤ 10) ∧
    (mock_analysis transcript question).word_count = wordCount transcript.toList ∧
    (mock_analysis transcript question).feedback ≠ [] := by
  refine ⟨by rfl, ?_, ?_, ?_, rfl, ?_⟩
  · apply round1_bounds
    · exact le_min (by norm_num) (le_trans (by norm_num) (le_max_left _ _))
    · exact min_le_left _ _
  · apply round1_bounds
    · refine le_min (by norm_num) ?_
      split <;> norm_num
    · exact min_le_left _ _
  · apply round1_bounds
    · refine le_min (by norm_num) ?_
      split <;> norm_num
    · exact min_le_left _ _
  · show (_ ++ [mockMsgStructure, mockMsgStar, mockMsgTone]) ≠ []
    simp

end InterviewAnalyzer
